import Mathlib

/-!
Verification of the `celestial_simulation` Universe orbit-graph subsystem.

This file gives a shallow embedding of the Python sources
(`src/celestial_bodies/celestial_bodies.py`, `src/orbital_dynamics/orbit.py`,
`src/orbital_dynamics/orbital_calculations.py`, `src/gravity/gravity.py`,
`src/utilities/basic_math.py`, `src/universe/universe.py`) and proves or
refutes the specification claims about it.

Modelling conventions:
* Python floats are modelled as rationals (`ℚ`); every arithmetic operation
  the embedded code performs is exact on the inputs appearing in the claims.
* Python exceptions are modelled by an explicit error type; a method that can
  raise returns `Option PyError × State` (the state component records any
  mutations performed before the raise) or `Except PyError α` for
  constructors.
* Python object identity is modelled by an `oid` field on `CelestialBody`;
  record equality then coincides with CPython `==` (which is identity here,
  since no `__eq__` is defined) as long as distinct objects get distinct
  `oid`s, which all concrete scenarios below respect.
-/

namespace CelestialSim

/-- Models a `CelestialBody` instance (src/celestial_bodies/celestial_bodies.py,
`CelestialBody.__init__`).  `name` is the instance attribute `name` set by
`__init__`.  `dunderName` models the separate instance attribute literally
called `__name` that `setattr(body, "__name", ...)` creates in
`Universe.add_celestial_body` and `Universe.alter_celestial_body_name`:
because `setattr` with a string does not participate in Python name mangling,
this attribute is distinct from `name` and nothing in the code ever reads it.
`oid` models CPython object identity (no source counterpart). -/
structure CelestialBody where
  oid : Nat
  name : String
  dunderName : Option String := none
  mass : ℚ
  radius : ℚ
deriving DecidableEq, Repr

/-- The sentinel name assigned by `CelestialBody.__init__` when no name is
supplied. -/
def unnamedSentinel : String := "Unnamed Celestial Body"

/-- `CelestialBody.__init__(mass, radius, name=None)`: stores mass and radius
unvalidated; a missing name becomes the sentinel. -/
def CelestialBody.init (oid : Nat) (mass radius : ℚ) (name : Option String) :
    CelestialBody :=
  { oid := oid, name := name.getD unnamedSentinel, mass := mass,
    radius := radius }

/-- Python exceptions raised by the embedded code.  `collisionError` models
the `CollisionError(ValueError)` subclass from src/orbital_dynamics/orbit.py. -/
inductive PyError where
  | valueError (msg : String)
  | keyError (msg : String)
  | attributeError (msg : String)
  | typeError (msg : String)
  | collisionError (msg : String)
deriving DecidableEq, Repr

/-- `gravitational_constant` from src/facts/numerical_constants.py. -/
def gravitational_constant : ℚ := 6.673e-11

/-- `calculate_gravitational_force_between_two_objects` from
src/gravity/gravity.py: validates positivity of both masses and the distance,
then returns `G * m1 * m2 / (distance * 1000)^2`.  (The `isinstance` checks
cannot fail in this typed embedding.) -/
def calculate_gravitational_force_between_two_objects
    (mass_one mass_two distance : ℚ) : Except PyError ℚ :=
  if mass_one ≤ 0 then .error (.valueError "mass_one must be greater than 0.")
  else if mass_two ≤ 0 then
    .error (.valueError "mass_two must be greater than 0.")
  else if distance ≤ 0 then
    .error (.valueError "distance must be greater than 0.")
  else .ok ((gravitational_constant * mass_one * mass_two)
    / (distance * 1000) ^ 2)

/-- `convert_weight_in_newtons_to_kilograms` from src/utilities/basic_math.py.
It has TWO required parameters; validates both positive; returns
`weight_in_newtons / gravitational_acceleration`. -/
def convert_weight_in_newtons_to_kilograms
    (weight_in_newtons gravitational_acceleration : ℚ) : Except PyError ℚ :=
  if weight_in_newtons ≤ 0 then
    .error (.valueError "weight_in_newtons must be greater than 0.")
  else if gravitational_acceleration ≤ 0 then
    .error (.valueError "gravitational_acceleration must be greater than 0.")
  else .ok (weight_in_newtons / gravitational_acceleration)

/-- `PlanetaryBody.calculate_weight_on_surface` from
src/celestial_bodies/celestial_bodies.py (lines 215-233).  It first computes
the gravitational force, then evaluates the call
`basic_math.convert_weight_in_newtons_to_kilograms(weight_in_newtons)`.
That call supplies only ONE argument to a function with TWO required
positional parameters, so CPython raises `TypeError` before the function body
runs; the embedding therefore returns that `TypeError` on every path that
reaches the call. -/
def calculate_weight_on_surface (body : CelestialBody)
    (mass_of_object : ℚ := 70) : Except PyError ℚ := do
  let _weight_in_newtons ← calculate_gravitational_force_between_two_objects
    body.mass mass_of_object body.radius
  .error (.typeError
    "convert_weight_in_newtons_to_kilograms missing 1 required positional argument: gravitational_acceleration")

/-- An `Orbit` instance record (src/orbital_dynamics/orbit.py): the four
attributes `Orbit.__init__` assigns. -/
structure Orbit where
  primary_body : CelestialBody
  orbiting_body : CelestialBody
  semimajor_axis : ℚ
  eccentricity : ℚ
deriving DecidableEq, Repr

/-- `Orbit.__init__` (src/orbital_dynamics/orbit.py lines 36-58): validates
`semimajor_axis > 0` and `0 <= eccentricity < 1`, runs `_collison_detection`,
then runs `_update_celestial_bodies`.

The collision test compares `primary.radius + orbiting.radius` against the
semi-minor axis `math.pow(a^2 * (1 - e^2), 1/2)` and against the perihelion
`a * (1 - e)`.  Over the rationals we encode the square-root comparison
exactly: for `m ≥ 0` (here `m = a^2*(1-e^2) ≥ 0` since `0 ≤ e < 1`),
`r ≥ √m` holds iff `0 ≤ r ∧ m ≤ r^2`; theorem `mkOrbit_collision_iff`
proves this encoding equivalent to the real-valued formulation.

`_update_celestial_bodies` (lines 106-114) executes
`getattr(self.primary_body, "orbiting_bodies")`, but the class attribute
declared as `__orbiting_bodies` is name-mangled to
`_CelestialBody__orbiting_bodies`, and no attribute named `orbiting_bodies`
exists anywhere on `CelestialBody`; CPython therefore raises
`AttributeError`, so `Orbit.__init__` never completes successfully. -/
def mkOrbit (primary_body orbiting_body : CelestialBody)
    (semimajor_axis eccentricity : ℚ) : Except PyError Orbit :=
  if semimajor_axis ≤ 0 then
    .error (.valueError "semimajor_axis must be > 0.")
  else if eccentricity < 0 ∨ 1 ≤ eccentricity then
    .error (.valueError "Eccentricity must be between 0 and 1; 0 <= e < 1")
  else
    let r := primary_body.radius + orbiting_body.radius
    if 0 ≤ r ∧ semimajor_axis ^ 2 * (1 - eccentricity ^ 2) ≤ r ^ 2 then
      .error (.collisionError
        "The semi-minor axis is so small that the orbiting body could not successfully pass by its primary body without colliding.")
    else if semimajor_axis * (1 - eccentricity) ≤ r then
      .error (.collisionError
        "The perihelion is so close that the orbiting body could not successfully circle its primary body without colliding.")
    else
      .error (.attributeError
        "CelestialBody object has no attribute orbiting_bodies")

/-- The nested-dictionary representation of the orbital graph
(`Universe.__orbital_graph`): a mapping from bodies to nested mappings. -/
inductive NestedMap where
  | mk (entries : List (CelestialBody × NestedMap)) : NestedMap

/-- The top-level association list of a nested mapping. -/
def NestedMap.entries : NestedMap → List (CelestialBody × NestedMap)
  | .mk es => es

/-- Top-level keys of a nested mapping — what Python membership
`cb in self.__orbital_graph` tests. -/
def NestedMap.topKeys (g : NestedMap) : List CelestialBody :=
  g.entries.map Prod.fst

/-- All bodies appearing anywhere in a nested mapping, as keys at any
depth. -/
def NestedMap.allBodies : NestedMap → List CelestialBody
  | .mk [] => []
  | .mk ((b, g) :: rest) => b :: (g.allBodies ++ (NestedMap.mk rest).allBodies)
decreasing_by
  · simp only [Prod.mk.sizeOf_spec, NestedMap.mk.sizeOf_spec,
      List.cons.sizeOf_spec]
    omega
  · simp only [Prod.mk.sizeOf_spec, NestedMap.mk.sizeOf_spec,
      List.cons.sizeOf_spec]
    omega

@[simp] lemma NestedMap.allBodies_nil : (NestedMap.mk []).allBodies = [] := by
  simp [NestedMap.allBodies]

@[simp] lemma NestedMap.allBodies_cons (b : CelestialBody) (g : NestedMap)
    (rest : List (CelestialBody × NestedMap)) :
    (NestedMap.mk ((b, g) :: rest)).allBodies =
      b :: (g.allBodies ++ (NestedMap.mk rest).allBodies) := by
  simp [NestedMap.allBodies]

/-- Membership in `allBodies`: a body is in the nested mapping iff it is a
key of some entry or lies in that entry's subtree. -/
lemma NestedMap.mem_allBodies (x : CelestialBody) :
    ∀ (es : List (CelestialBody × NestedMap)),
      x ∈ (NestedMap.mk es).allBodies ↔
        ∃ p ∈ es, x = p.1 ∨ x ∈ p.2.allBodies
  | [] => by simp
  | (b, g) :: rest => by
    rw [NestedMap.allBodies_cons]
    constructor
    · intro h
      rcases List.mem_cons.mp h with h | h
      · exact ⟨(b, g), List.mem_cons_self _ _, Or.inl h⟩
      · rcases List.mem_append.mp h with h | h
        · exact ⟨(b, g), List.mem_cons_self _ _, Or.inr h⟩
        · obtain ⟨p, hp, hx⟩ := (NestedMap.mem_allBodies x rest).mp h
          exact ⟨p, List.mem_cons_of_mem _ hp, hx⟩
    · rintro ⟨p, hp, hx⟩
      rcases List.mem_cons.mp hp with rfl | hp
      · rcases hx with rfl | hx
        · exact List.mem_cons_self _ _
        · exact List.mem_cons_of_mem _ (List.mem_append_left _ hx)
      · exact List.mem_cons_of_mem _ (List.mem_append_right _
          ((NestedMap.mem_allBodies x rest).mpr ⟨p, hp, hx⟩))

/-- The `Universe` state (src/universe/universe.py): the four private fields
set by `Universe.__init__` plus the universe name.  The body dictionary is
modelled as an insertion-ordered association list, matching CPython dict
semantics. -/
structure Universe where
  name : String
  celestial_bodies : List (String × CelestialBody)
  orbits : List Orbit
  orbital_graph : NestedMap
  unnamed_id : Nat

/-- `Universe.__init__(name=None)`. -/
def Universe.init (name : Option String) : Universe :=
  { name := name.getD "Unnamed Universe", celestial_bodies := [],
    orbits := [], orbital_graph := .mk [], unnamed_id := 1 }

/-- Dictionary lookup by key (CPython `d[k]` / `k in d` on a string-keyed
dict). -/
def dictLookup (d : List (String × CelestialBody)) (k : String) :
    Option CelestialBody :=
  (d.find? fun p => decide (p.1 = k)).map Prod.snd

/-- `Universe.untethered_planets` (lines 38-50): filters the body dict,
keeping entries whose body is not an `orbiting_body` of any orbit and is not
a TOP-LEVEL key of `__orbital_graph` (Python `cb not in self.__orbital_graph`
tests only the outermost dict keys). -/
def untethered_planets (u : Universe) : List (String × CelestialBody) :=
  let orbiting_bodies := u.orbits.map (·.orbiting_body)
  u.celestial_bodies.filter fun p =>
    decide (¬ p.2 ∈ orbiting_bodies) &&
      decide (¬ p.2 ∈ u.orbital_graph.topKeys)

/-- `Universe.add_celestial_body` (lines 108-124).  If the body's name equals
the sentinel, the code executes `setattr(celestial_body, "__name", ...)` —
which creates the separate `__name` attribute and leaves the `name`
attribute unchanged — and increments `__unnamed_id`.  It then checks
`celestial_body.name` (still the sentinel for unnamed bodies!) against the
dict and raises `ValueError` on a hit, else inserts under
`celestial_body.name`.  The returned state is the universe as mutated up to
the point of return or raise (the counter increment survives a raise). -/
def add_celestial_body (u : Universe) (cb : CelestialBody) :
    Option PyError × Universe :=
  let freshName := unnamedSentinel ++ " " ++ toString u.unnamed_id
  let cb2 := if cb.name = unnamedSentinel then
      { cb with dunderName := some freshName }
    else cb
  let u2 := if cb.name = unnamedSentinel then
      { u with unnamed_id := u.unnamed_id + 1 }
    else u
  if (dictLookup u2.celestial_bodies cb2.name).isSome then
    (some (.valueError ("A celestial body with the name " ++ cb2.name ++
      " already exist in this universe.")), u2)
  else
    (none, { u2 with
      celestial_bodies := u2.celestial_bodies ++ [(cb2.name, cb2)] })

/-- `Universe.alter_celestial_body_name` (lines 75-92): `KeyError` if the
current name is absent, `ValueError` if the new name is present; otherwise
`setattr(body, "__name", new_name)` (which does NOT change the `name`
attribute) and then `d[new] = d.pop(current)`, which moves the entry to the
end of the dict under the new key. -/
def alter_celestial_body_name (u : Universe) (current_name new_name : String) :
    Option PyError × Universe :=
  match dictLookup u.celestial_bodies current_name with
  | none => (some (.keyError ("No celestial body with the name " ++
      current_name ++ " exists in " ++ u.name)), u)
  | some body =>
    if (dictLookup u.celestial_bodies new_name).isSome then
      (some (.valueError ("A celestial body with the name " ++ new_name ++
        " already exist in " ++ u.name ++ ".")), u)
    else
      let body2 := { body with dunderName := some new_name }
      (none, { u with celestial_bodies :=
        (u.celestial_bodies.eraseP fun p => decide (p.1 = current_name)) ++
          [(new_name, body2)] })

/-- The sort in `_build_acyclic_graph_of_orbits`:
`sorted(self.__orbits, key=lambda o: o.semimajor_axis)` — a stable ascending
sort by semimajor axis. -/
def sortOrbits (os : List Orbit) : List Orbit :=
  os.insertionSort fun a b => a.semimajor_axis ≤ b.semimajor_axis

/-- `Universe.__recursive_graph_sort` (lines 173-187), with explicit fuel in
place of Python's unbounded recursion: the children of `root` are the
orbiting bodies of all orbits whose primary body equals `root`, each mapped
to its own recursively built nested mapping.  Theorem for claim C3 shows the
result is fuel-independent once the fuel reaches `os.length + 1`, which is
the sense in which the Python recursion terminates. -/
def recursiveGraphSort (os : List Orbit) : Nat → CelestialBody → NestedMap
  | 0, _ => .mk []
  | fuel + 1, root =>
    .mk ((os.filter fun o => decide (o.primary_body = root)).map
      fun o => (o.orbiting_body, recursiveGraphSort os fuel o.orbiting_body))

/-- The roots computed by `_build_acyclic_graph_of_orbits` (lines 189-206):
`{x.primary_body} - {x.orbiting_body}` over the orbit list.  Python iterates
this set in unspecified (hash) order; the embedding fixes first-appearance
order, which no claim depends on. -/
def rootsOf (os : List Orbit) : List CelestialBody :=
  ((os.map (·.primary_body)).dedup).filter fun b =>
    decide (¬ b ∈ os.map (·.orbiting_body))

/-- The graph `_build_acyclic_graph_of_orbits` derives from an
(already sorted) orbit list: one top-level entry per root, each carrying its
recursive subtree. -/
def graphFromOrbits (os : List Orbit) : NestedMap :=
  .mk ((rootsOf os).map fun r => (r, recursiveGraphSort os (os.length + 1) r))

/-- `Universe._build_acyclic_graph_of_orbits` (lines 189-206): re-sorts the
orbit list by semimajor axis, stores the sorted list back into `__orbits`,
and rebuilds `__orbital_graph` from it.  Returns the new orbit list and
graph. -/
def buildAcyclicGraphOfOrbits (os : List Orbit) : List Orbit × NestedMap :=
  let sortedOrbits := sortOrbits os
  (sortedOrbits, graphFromOrbits sortedOrbits)

/-- `Universe.add_orbit` (lines 208-228): `AttributeError` if either body's
name is absent from the dict; `AttributeError` naming the existing primary if
the orbiting body is already the orbiting body of some stored orbit (the
`list.index` call finds the first match); otherwise append the orbit and
rebuild (which re-sorts `__orbits` and recomputes `__orbital_graph`). -/
def add_orbit (u : Universe) (o : Orbit) : Option PyError × Universe :=
  if (dictLookup u.celestial_bodies o.primary_body.name).isNone then
    (some (.attributeError (o.primary_body.name ++ " does not exist in " ++
      u.name ++ ". To add, use the add_celestial_body() method.")), u)
  else if (dictLookup u.celestial_bodies o.orbiting_body.name).isNone then
    (some (.attributeError (o.orbiting_body.name ++ " does not exist in " ++
      u.name ++ ". To add, use the add_celestial_body() method.")), u)
  else
    match u.orbits.find? fun x => decide (x.orbiting_body = o.orbiting_body)
    with
    | some prev =>
      (some (.attributeError (o.orbiting_body.name ++ " already orbits " ++
        prev.primary_body.name)), u)
    | none =>
      let built := buildAcyclicGraphOfOrbits (u.orbits ++ [o])
      (none, { u with orbits := built.1, orbital_graph := built.2 })

/-- The three mutating operations of `Universe`. -/
inductive MutOp where
  | addBody (cb : CelestialBody)
  | addOrbit (o : Orbit)
  | rename (current_name new_name : String)

/-- Run one mutating operation, returning the raised error (if any) and the
state of the universe after the call. -/
def runOp (u : Universe) : MutOp → Option PyError × Universe
  | .addBody cb => add_celestial_body u cb
  | .addOrbit o => add_orbit u o
  | .rename c n => alter_celestial_body_name u c n

/-- Universe states reachable from a fresh `Universe` through any sequence of
mutating operations (successful or failed — a failed call can still have
mutated the unnamed-name counter). -/
inductive Reachable : Universe → Prop where
  | init (name : Option String) : Reachable (Universe.init name)
  | step {u : Universe} (op : MutOp) : Reachable u → Reachable (runOp u op).2

/-! ### Concrete scenario data

Rational constants are written as plain numerals or `mkRat` fractions so
that they evaluate inside the kernel.  `sunBody`, `earthBody`, `marsBody`
carry the masses and radii from the specification's concrete scenarios
(1.989e30 kg / 695700 km, 5.972e24 kg / 6371 km, 6.39e23 kg / 3389 km). -/

def sunBody : CelestialBody :=
  CelestialBody.init 1 1989000000000000000000000000000 695700 (some "Sun")

def earthBody : CelestialBody :=
  CelestialBody.init 2 5972000000000000000000000 6371 (some "Earth")

def marsBody : CelestialBody :=
  CelestialBody.init 3 639000000000000000000000 3389 (some "Mars")

/-- Earth's orbital eccentricity 0.0167 as an exact rational. -/
def earthEcc : ℚ := mkRat 167 10000

def emptyUniverse : Universe := Universe.init none

/-- The Sun/Earth/Mars universe: all three bodies added, no orbits yet. -/
def uSystem : Universe :=
  (add_celestial_body
    (add_celestial_body
      (add_celestial_body emptyUniverse sunBody).2 earthBody).2 marsBody).2

/-- The Sun/Earth orbit record of the concrete scenario (Orbit attributes;
recall that `Orbit.__init__` itself can never return normally, see
`mkOrbit`). -/
def orbitSunEarth : Orbit :=
  { primary_body := sunBody, orbiting_body := earthBody,
    semimajor_axis := 149600000, eccentricity := earthEcc }

/-- `uSystem` after `add_orbit(orbitSunEarth)`. -/
def uSystem1 : Universe := (add_orbit uSystem orbitSunEarth).2

/-- A Mars-primary orbit whose orbiting body Earth already orbits the Sun in
`uSystem1`. -/
def orbitMarsEarth : Orbit :=
  { primary_body := marsBody, orbiting_body := earthBody,
    semimajor_axis := 1000, eccentricity := 0 }

/-- Two bodies constructed with no name (the sentinel), for the unnamed-body
scenario. -/
def unnamedBody1 : CelestialBody := CelestialBody.init 1 1 1 none

def unnamedBody2 : CelestialBody := CelestialBody.init 2 1 1 none

/-- The universe after adding the first unnamed body (this call succeeds and
bumps the counter to 2). -/
def uAfterUnnamed1 : Universe :=
  (add_celestial_body emptyUniverse unnamedBody1).2

/-- Bodies named A, B, C for the cycle and untethered scenarios. -/
def bodyA : CelestialBody := CelestialBody.init 1 1 1 (some "A")

def bodyB : CelestialBody := CelestialBody.init 2 1 1 (some "B")

def bodyC : CelestialBody := CelestialBody.init 3 1 1 (some "C")

def orbitAB : Orbit :=
  { primary_body := bodyA, orbiting_body := bodyB,
    semimajor_axis := 2, eccentricity := 0 }

def orbitBA : Orbit :=
  { primary_body := bodyB, orbiting_body := bodyA,
    semimajor_axis := 1, eccentricity := 0 }

/-- Universe with bodies A and B added. -/
def uAB : Universe :=
  (add_celestial_body (add_celestial_body emptyUniverse bodyA).2 bodyB).2

/-- `uAB` after accepting the orbit B-around-A. -/
def uCycle1 : Universe := (add_orbit uAB orbitAB).2

/-- `uCycle1` after also accepting the orbit A-around-B, closing a cycle. -/
def uCycle2 : Universe := (add_orbit uCycle1 orbitBA).2

/-- Universe with bodies A, B, C and the single orbit B-around-A. -/
def uABC : Universe := (add_celestial_body uAB bodyC).2

def uABC1 : Universe := (add_orbit uABC orbitAB).2

/-- Universe containing only body A, for the rename scenario. -/
def uJustA : Universe := (add_celestial_body emptyUniverse bodyA).2

/-! ### Reachability of the scenario universes -/

lemma reachable_uSystem : Reachable uSystem :=
  (((Reachable.init none).step (.addBody sunBody)).step
    (.addBody earthBody)).step (.addBody marsBody)

lemma reachable_uSystem1 : Reachable uSystem1 :=
  reachable_uSystem.step (.addOrbit orbitSunEarth)

lemma reachable_uAB : Reachable uAB :=
  ((Reachable.init none).step (.addBody bodyA)).step (.addBody bodyB)

lemma reachable_uABC : Reachable uABC :=
  reachable_uAB.step (.addBody bodyC)

lemma reachable_uABC1 : Reachable uABC1 :=
  reachable_uABC.step (.addOrbit orbitAB)

lemma reachable_uCycle2 : Reachable uCycle2 :=
  ((reachable_uAB.step (.addOrbit orbitAB)).step (.addOrbit orbitBA))

/-! ### Claim theorems: concrete evaluations -/

/-- Claim C1: the spec scenario says constructing Orbit(Sun, Earth,
semimajor_axis=149.6e6, eccentricity=0.0167) succeeds and, once added, the
orbital graph is the Sun/Earth nesting.  The code disagrees: the collision
checks pass, but `Orbit._update_celestial_bodies` then evaluates
`getattr(self.primary_body, "orbiting_bodies")` — an attribute that does not
exist, because the class declaration `__orbiting_bodies` was name-mangled to
`_CelestialBody__orbiting_bodies` — so `Orbit.__init__` raises
`AttributeError` and no orbit object is ever produced. -/
theorem claim_C1 :
    mkOrbit sunBody earthBody 149600000 earthEcc =
      .error (.attributeError
        "CelestialBody object has no attribute orbiting_bodies") := by
  simp only [mkOrbit, sunBody, earthBody, earthEcc, CelestialBody.init]
  norm_num [Rat.mkRat_eq_div]

/-- Claim C6: the spec says adding two unnamed bodies succeeds twice and the
stored bodies are renamed "Unnamed Celestial Body 1" and "... 2".  The code
disagrees: `setattr(celestial_body, "__name", ...)` writes a fresh attribute
`__name` distinct from `name`, so the body's `name` stays the sentinel; the
first add stores the body under the sentinel key, and the second add then
fails with `ValueError` (a `DuplicateName`).  This theorem evaluates both
calls. -/
theorem claim_C6 :
    (add_celestial_body emptyUniverse unnamedBody1).1 = none ∧
    ((add_celestial_body emptyUniverse unnamedBody1).2.celestial_bodies.map
      fun p => p.2.name) = [unnamedSentinel] ∧
    uAfterUnnamed1.unnamed_id = 2 ∧
    (add_celestial_body uAfterUnnamed1 unnamedBody2).1 =
      some (.valueError
        "A celestial body with the name Unnamed Celestial Body already exist in this universe.") :=
  ⟨rfl, rfl, rfl, rfl⟩

/-- Claim C8: the spec says a successful rename moves the dictionary entry
and updates the body's stored name.  The code moves the entry (new key
present, old key gone, both error paths right) but
`setattr(body, "__name", new_name)` does not touch the `name` attribute:
after renaming A to B the body stored under key "B" still has
`name = "A"`. -/
theorem claim_C8 :
    (alter_celestial_body_name uJustA "A" "B").1 = none ∧
    dictLookup
      (alter_celestial_body_name uJustA "A" "B").2.celestial_bodies "A" =
      none ∧
    dictLookup
      (alter_celestial_body_name uJustA "A" "B").2.celestial_bodies "B" =
      some { oid := 1, name := "A", dunderName := some "B", mass := 1,
             radius := 1 } ∧
    (alter_celestial_body_name uJustA "X" "Y").1 =
      some (.keyError
        "No celestial body with the name X exists in Unnamed Universe") ∧
    (alter_celestial_body_name uAB "A" "B").1 =
      some (.valueError
        "A celestial body with the name B already exist in Unnamed Universe.") :=
  ⟨rfl, rfl, rfl, rfl, rfl⟩

/-- Claim C9: the spec says `calculate_weight_on_surface` returns a surface
weight.  The code computes the gravitational force and then calls
`convert_weight_in_newtons_to_kilograms(weight_in_newtons)` with one
argument, but that function has two required positional parameters, so for
every valid input CPython raises `TypeError` instead of returning a
weight. -/
theorem claim_C9 (body : CelestialBody) (mass_of_object : ℚ)
    (h1 : 0 < body.mass) (h2 : 0 < body.radius) (h3 : 0 < mass_of_object) :
    calculate_weight_on_surface body mass_of_object =
      .error (.typeError
        "convert_weight_in_newtons_to_kilograms missing 1 required positional argument: gravitational_acceleration") := by
  unfold calculate_weight_on_surface
    calculate_gravitational_force_between_two_objects
  rw [if_neg (not_le.mpr h1), if_neg (not_le.mpr h3), if_neg (not_le.mpr h2)]
  rfl

/-- Witness for C9 at the Earth values and the default 70 kg object. -/
theorem claim_C9_witness :
    calculate_weight_on_surface earthBody 70 =
      .error (.typeError
        "convert_weight_in_newtons_to_kilograms missing 1 required positional argument: gravitational_acceleration") :=
  claim_C9 earthBody 70 (by norm_num [earthBody, CelestialBody.init])
    (by norm_num [earthBody, CelestialBody.init]) (by norm_num)

/-- Claim C10: `add_orbit` only rejects duplicate orbiting bodies, so the
two-orbit cycle B-around-A then A-around-B is accepted; afterwards the graph
has no roots (it is the empty mapping, so A and B appear nowhere in it) and
`untethered_planets` returns nothing either, although both bodies are still
in the body dictionary. -/
theorem claim_C10 :
    (add_orbit uAB orbitAB).1 = none ∧
    (add_orbit uCycle1 orbitBA).1 = none ∧
    uCycle2.orbits = [orbitBA, orbitAB] ∧
    uCycle2.orbital_graph = .mk [] ∧
    NestedMap.allBodies uCycle2.orbital_graph = [] ∧
    untethered_planets uCycle2 = [] ∧
    dictLookup uCycle2.celestial_bodies "A" = some bodyA ∧
    dictLookup uCycle2.celestial_bodies "B" = some bodyB :=
  ⟨rfl, rfl, rfl, rfl,
    by rw [show uCycle2.orbital_graph = .mk [] from rfl,
      NestedMap.allBodies_nil],
    rfl, rfl, rfl⟩

/-- Counterexample to claim C7 as stated: a failed `add_celestial_body` of a
second unnamed body leaves the universe with a DIFFERENT unnamed-name
counter (3 instead of 2), so the whole state is not preserved by every
failing mutation. -/
theorem claim_C7_counterexample :
    (runOp uAfterUnnamed1 (.addBody unnamedBody2)).1.isSome = true ∧
    (runOp uAfterUnnamed1 (.addBody unnamedBody2)).2.unnamed_id = 3 ∧
    uAfterUnnamed1.unnamed_id = 2 :=
  ⟨rfl, rfl, rfl⟩

/-- Claim C7, amended: a failing mutation never changes the body dictionary,
the orbit list or the orbital graph; the unnamed-name counter is also
unchanged EXCEPT for a failing `add_celestial_body` whose argument carries
the unnamed sentinel name, which has already incremented the counter before
raising. -/
theorem claim_C7_amended (u : Universe) (op : MutOp)
    (h : (runOp u op).1.isSome = true) :
    (runOp u op).2.celestial_bodies = u.celestial_bodies ∧
    (runOp u op).2.orbits = u.orbits ∧
    (runOp u op).2.orbital_graph = u.orbital_graph ∧
    ((runOp u op).2.unnamed_id = u.unnamed_id ∨
      ∃ cb, op = .addBody cb ∧ cb.name = unnamedSentinel ∧
        (runOp u op).2.unnamed_id = u.unnamed_id + 1) := by
  cases op with
  | addBody cb =>
    by_cases hname : cb.name = unnamedSentinel
    · by_cases hdup :
          (dictLookup u.celestial_bodies unnamedSentinel).isSome = true
      · have hstate : (runOp u (.addBody cb)).2 =
            { u with unnamed_id := u.unnamed_id + 1 } := by
          simp [runOp, add_celestial_body, hname, hdup]
        rw [hstate]
        exact ⟨rfl, rfl, rfl, Or.inr ⟨cb, rfl, hname, rfl⟩⟩
      · exfalso
        simp [runOp, add_celestial_body, hname, hdup] at h
    · by_cases hdup :
          (dictLookup u.celestial_bodies cb.name).isSome = true
      · have hstate : (runOp u (.addBody cb)).2 = u := by
          simp [runOp, add_celestial_body, hname, hdup]
        rw [hstate]
        exact ⟨rfl, rfl, rfl, Or.inl rfl⟩
      · exfalso
        simp [runOp, add_celestial_body, hname, hdup] at h
  | addOrbit o =>
    have hstate : (runOp u (.addOrbit o)).2 = u := by
      by_cases h1 :
          (dictLookup u.celestial_bodies o.primary_body.name).isNone = true
      · simp [runOp, add_orbit, h1]
      · by_cases h2 :
            (dictLookup u.celestial_bodies o.orbiting_body.name).isNone
              = true
        · simp [runOp, add_orbit, h1, h2]
        · rcases hfind : u.orbits.find?
              (fun x => decide (x.orbiting_body = o.orbiting_body)) with
            _ | prev
          · exfalso
            simp [runOp, add_orbit, h1, h2, hfind] at h
          · simp [runOp, add_orbit, h1, h2, hfind]
    rw [hstate]
    exact ⟨rfl, rfl, rfl, Or.inl rfl⟩
  | rename c n =>
    have hstate : (runOp u (.rename c n)).2 = u := by
      rcases hlook : dictLookup u.celestial_bodies c with _ | body
      · simp [runOp, alter_celestial_body_name, hlook]
      · by_cases hnew : (dictLookup u.celestial_bodies n).isSome = true
        · simp [runOp, alter_celestial_body_name, hlook, hnew]
        · exfalso
          simp [runOp, alter_celestial_body_name, hlook, hnew] at h
    rw [hstate]
    exact ⟨rfl, rfl, rfl, Or.inl rfl⟩

/-- Witness for the amended C7 at the concrete failing second unnamed add:
the body dictionary, orbits and graph are untouched and the counter case is
the incrementing one. -/
theorem claim_C7_amended_witness :
    (runOp uAfterUnnamed1 (.addBody unnamedBody2)).2.celestial_bodies =
      uAfterUnnamed1.celestial_bodies ∧
    (runOp uAfterUnnamed1 (.addBody unnamedBody2)).2.orbits =
      uAfterUnnamed1.orbits ∧
    (runOp uAfterUnnamed1 (.addBody unnamedBody2)).2.orbital_graph =
      uAfterUnnamed1.orbital_graph ∧
    ((runOp uAfterUnnamed1 (.addBody unnamedBody2)).2.unnamed_id =
        uAfterUnnamed1.unnamed_id ∨
      ∃ cb, MutOp.addBody unnamedBody2 = .addBody cb ∧
        cb.name = unnamedSentinel ∧
        (runOp uAfterUnnamed1 (.addBody unnamedBody2)).2.unnamed_id =
          uAfterUnnamed1.unnamed_id + 1) :=
  claim_C7_amended uAfterUnnamed1 (.addBody unnamedBody2) rfl

/-- Claim C4: if both bodies of the orbit are present (by name) and the
orbiting body already appears as the orbiting body of a stored orbit (the
first such orbit being `prev`, as `list.index` finds it), then `add_orbit`
raises `AttributeError` whose message names the primary body the orbiting
body already orbits, and returns the universe state unchanged. -/
theorem claim_C4 (u : Universe) (o prev : Orbit)
    (h1 : (dictLookup u.celestial_bodies o.primary_body.name).isSome = true)
    (h2 : (dictLookup u.celestial_bodies o.orbiting_body.name).isSome = true)
    (h3 : u.orbits.find?
      (fun x => decide (x.orbiting_body = o.orbiting_body)) = some prev) :
    add_orbit u o =
      (some (.attributeError (o.orbiting_body.name ++ " already orbits " ++
        prev.primary_body.name)), u) := by
  have h1' : ¬ (dictLookup u.celestial_bodies o.primary_body.name).isNone
      = true := by
    rcases hq : dictLookup u.celestial_bodies o.primary_body.name with _ | v
    · rw [hq] at h1; simp at h1
    · simp
  have h2' : ¬ (dictLookup u.celestial_bodies o.orbiting_body.name).isNone
      = true := by
    rcases hq : dictLookup u.celestial_bodies o.orbiting_body.name with _ | v
    · rw [hq] at h2; simp at h2
    · simp
  unfold add_orbit
  rw [if_neg h1', if_neg h2', h3]

/-- Witness for C4: in the Sun/Earth/Mars universe where Earth already
orbits the Sun, adding a Mars-primary orbit of Earth fails with the
already-orbits error naming the Sun and leaves the state unchanged. -/
theorem claim_C4_witness :
    add_orbit uSystem1 orbitMarsEarth =
      (some (.attributeError "Earth already orbits Sun"), uSystem1) :=
  claim_C4 uSystem1 orbitMarsEarth orbitSunEarth rfl rfl rfl

/-- Claim C5: for bodies with any radii and parameters `a > 0`,
`0 ≤ e < 1`, orbit construction fails with `CollisionError` exactly when the
combined radii reach the semi-minor axis `a·√(1-e²)` or the perihelion
`a·(1-e)`; and under that condition no `Orbit` value is ever produced (so no
such orbit can be added to a universe). -/
theorem claim_C5 (p o : CelestialBody) (a e : ℚ) (ha : 0 < a) (he0 : 0 ≤ e)
    (he1 : e < 1) :
    ((∃ msg, mkOrbit p o a e = .error (.collisionError msg)) ↔
      ((a : ℝ) * Real.sqrt (1 - (e : ℝ) ^ 2) ≤
          ((p.radius + o.radius : ℚ) : ℝ) ∨
        a * (1 - e) ≤ p.radius + o.radius)) ∧
    ∀ orb : Orbit, mkOrbit p o a e ≠ .ok orb := by
  have hev : ¬ (e < 0 ∨ 1 ≤ e) := by push_neg; exact ⟨he0, he1⟩
  have h1e : (0 : ℝ) ≤ 1 - (e : ℝ) ^ 2 := by
    have he1' : (e : ℝ) < 1 := by exact_mod_cast he1
    have he0' : (0 : ℝ) ≤ (e : ℝ) := by exact_mod_cast he0
    nlinarith
  have hsqrt : ((a : ℝ) * Real.sqrt (1 - (e : ℝ) ^ 2) ≤
      ((p.radius + o.radius : ℚ) : ℝ)) ↔
      (0 ≤ p.radius + o.radius ∧
        a ^ 2 * (1 - e ^ 2) ≤ (p.radius + o.radius) ^ 2) := by
    have ha' : (0 : ℝ) ≤ (a : ℝ) := by exact_mod_cast ha.le
    rw [show (a : ℝ) * Real.sqrt (1 - (e : ℝ) ^ 2) =
        Real.sqrt ((a : ℝ) ^ 2 * (1 - (e : ℝ) ^ 2)) by
      rw [Real.sqrt_mul (sq_nonneg _), Real.sqrt_sq ha']]
    rw [Real.sqrt_le_iff]
    constructor
    · rintro ⟨hr, hle⟩
      refine ⟨by exact_mod_cast hr, ?_⟩
      exact_mod_cast hle
    · rintro ⟨hr, hle⟩
      refine ⟨by exact_mod_cast hr, ?_⟩
      exact_mod_cast hle
  constructor
  · rw [hsqrt]
    unfold mkOrbit
    rw [if_neg (not_le.mpr ha), if_neg hev]
    by_cases hc1 : 0 ≤ p.radius + o.radius ∧
        a ^ 2 * (1 - e ^ 2) ≤ (p.radius + o.radius) ^ 2
    · simp [hc1]
    · by_cases hc2 : a * (1 - e) ≤ p.radius + o.radius
      · simp [hc1, hc2]
      · simp [hc1, hc2]
  · intro orb
    unfold mkOrbit
    rw [if_neg (not_le.mpr ha), if_neg hev]
    by_cases hc1 : 0 ≤ p.radius + o.radius ∧
        a ^ 2 * (1 - e ^ 2) ≤ (p.radius + o.radius) ^ 2
    · simp [hc1]
    · by_cases hc2 : a * (1 - e) ≤ p.radius + o.radius
      · simp [hc1, hc2]
      · simp [hc1, hc2]

/-- Witness for C5 at the spec's collision scenario: Orbit(Sun, Earth,
a=700000, e=0.01).  The combined radii 702071 exceed the perihelion 693000,
so construction fails with a `CollisionError`. -/
theorem claim_C5_witness :
    (0 : ℚ) < 700000 ∧ (0 : ℚ) ≤ mkRat 1 100 ∧ mkRat 1 100 < (1 : ℚ) ∧
    ∃ msg, mkOrbit sunBody earthBody 700000 (mkRat 1 100) =
      .error (.collisionError msg) := by
  refine ⟨by norm_num, by norm_num [Rat.mkRat_eq_div],
    by norm_num [Rat.mkRat_eq_div], ?_⟩
  refine (claim_C5 sunBody earthBody 700000 (mkRat 1 100) (by norm_num)
    (by norm_num [Rat.mkRat_eq_div]) (by norm_num [Rat.mkRat_eq_div])).1.mpr
    ?_
  right
  norm_num [Rat.mkRat_eq_div, sunBody, earthBody, CelestialBody.init]

/-! ### The orbital graph invariant of reachable states -/

lemma add_celestial_body_orbits_graph (u : Universe) (cb : CelestialBody) :
    (add_celestial_body u cb).2.orbits = u.orbits ∧
    (add_celestial_body u cb).2.orbital_graph = u.orbital_graph := by
  by_cases hname : cb.name = unnamedSentinel <;>
    by_cases hdup : (dictLookup u.celestial_bodies cb.name).isSome = true <;>
      simp [add_celestial_body, hname, hdup] at * <;>
      simp [add_celestial_body, hname, hdup]

lemma alter_orbits_graph (u : Universe) (c n : String) :
    (alter_celestial_body_name u c n).2.orbits = u.orbits ∧
    (alter_celestial_body_name u c n).2.orbital_graph = u.orbital_graph := by
  rcases hlook : dictLookup u.celestial_bodies c with _ | body
  · simp [alter_celestial_body_name, hlook]
  · by_cases hnew : (dictLookup u.celestial_bodies n).isSome = true <;>
      simp [alter_celestial_body_name, hlook, hnew]

lemma add_orbit_state (u : Universe) (o : Orbit) :
    (add_orbit u o).2 = u ∨
    (add_orbit u o).2 =
      { u with orbits := (buildAcyclicGraphOfOrbits (u.orbits ++ [o])).1,
               orbital_graph :=
                 (buildAcyclicGraphOfOrbits (u.orbits ++ [o])).2 } := by
  by_cases h1 :
      (dictLookup u.celestial_bodies o.primary_body.name).isNone = true
  · left; simp [add_orbit, h1]
  · by_cases h2 :
        (dictLookup u.celestial_bodies o.orbiting_body.name).isNone = true
    · left; simp [add_orbit, h1, h2]
    · rcases hfind : u.orbits.find?
          (fun x => decide (x.orbiting_body = o.orbiting_body)) with _ | prev
      · right; simp [add_orbit, h1, h2, hfind]
      · left; simp [add_orbit, h1, h2, hfind]

/-- In every reachable universe state, the stored `orbital_graph` is exactly
the graph derived from the stored (already sorted) orbit list. -/
theorem reachable_graph_eq {u : Universe} (h : Reachable u) :
    u.orbital_graph = graphFromOrbits u.orbits := by
  induction h with
  | init name => rfl
  | step op hu ih =>
    rename_i v
    cases op with
    | addBody cb =>
      show (add_celestial_body v cb).2.orbital_graph =
        graphFromOrbits (add_celestial_body v cb).2.orbits
      rw [(add_celestial_body_orbits_graph v cb).1,
        (add_celestial_body_orbits_graph v cb).2]
      exact ih
    | rename c n =>
      show (alter_celestial_body_name v c n).2.orbital_graph =
        graphFromOrbits (alter_celestial_body_name v c n).2.orbits
      rw [(alter_orbits_graph v c n).1, (alter_orbits_graph v c n).2]
      exact ih
    | addOrbit o =>
      show (add_orbit v o).2.orbital_graph =
        graphFromOrbits (add_orbit v o).2.orbits
      rcases add_orbit_state v o with hs | hs
      · rw [hs]; exact ih
      · rw [hs]; rfl

/-- Every body nested anywhere inside a `recursiveGraphSort` subtree is the
orbiting body of some orbit in the list. -/
lemma mem_allBodies_rgs {os : List Orbit} :
    ∀ (fuel : Nat) (root x : CelestialBody),
      x ∈ (recursiveGraphSort os fuel root).allBodies →
      ∃ o ∈ os, o.orbiting_body = x
  | 0, root, x, h => by simp [recursiveGraphSort] at h
  | fuel + 1, root, x, h => by
    rw [recursiveGraphSort] at h
    obtain ⟨p, hp, hx⟩ := (NestedMap.mem_allBodies _ _).mp h
    obtain ⟨o, ho, rfl⟩ := List.mem_map.mp hp
    have ho' : o ∈ os := List.mem_of_mem_filter ho
    rcases hx with rfl | hx
    · exact ⟨o, ho', rfl⟩
    · exact mem_allBodies_rgs fuel o.orbiting_body x hx

lemma topKeys_graphFromOrbits (os : List Orbit) :
    (graphFromOrbits os).topKeys = rootsOf os := by
  simp [graphFromOrbits, NestedMap.topKeys, NestedMap.entries, List.map_map,
    Function.comp_def]

lemma topKeys_subset_allBodies (g : NestedMap) :
    ∀ x ∈ g.topKeys, x ∈ g.allBodies := by
  cases g with
  | mk es =>
    intro x hx
    obtain ⟨p, hp, rfl⟩ := List.mem_map.mp hx
    exact (NestedMap.mem_allBodies _ _).mpr ⟨p, hp, Or.inl rfl⟩

lemma mem_allBodies_graphFromOrbits {os : List Orbit} {x : CelestialBody} :
    x ∈ (graphFromOrbits os).allBodies ↔
      x ∈ rootsOf os ∨ ∃ r ∈ rootsOf os,
        x ∈ (recursiveGraphSort os (os.length + 1) r).allBodies := by
  unfold graphFromOrbits
  rw [NestedMap.mem_allBodies]
  constructor
  · rintro ⟨p, hp, hx⟩
    obtain ⟨r, hr, rfl⟩ := List.mem_map.mp hp
    rcases hx with rfl | hx
    · exact Or.inl hr
    · exact Or.inr ⟨r, hr, hx⟩
  · rintro (hx | ⟨r, hr, hx⟩)
    · exact ⟨(x, recursiveGraphSort os (os.length + 1) x),
        List.mem_map.mpr ⟨x, hx, rfl⟩, Or.inl rfl⟩
    · exact ⟨(r, recursiveGraphSort os (os.length + 1) r),
        List.mem_map.mpr ⟨r, hr, rfl⟩, Or.inr hx⟩

/-- Claim C2: in every reachable state, `untethered_planets` returns exactly
the entries of the body dictionary whose body neither is the orbiting body
of any stored orbit nor appears anywhere (key or nested value) in the
orbital graph.  (The code only tests top-level graph keys, but in a graph
derived by the rebuild every nested body is an orbiting body, so the two
readings agree.) -/
theorem claim_C2 {u : Universe} (hr : Reachable u) (name : String)
    (cb : CelestialBody) :
    (name, cb) ∈ untethered_planets u ↔
      ((name, cb) ∈ u.celestial_bodies ∧
        cb ∉ u.orbits.map (·.orbiting_body) ∧
        cb ∉ u.orbital_graph.allBodies) := by
  have hg := reachable_graph_eq hr
  unfold untethered_planets
  rw [List.mem_filter]
  simp only [Bool.and_eq_true, decide_eq_true_eq]
  constructor
  · rintro ⟨hmem, horb, htop⟩
    refine ⟨hmem, horb, fun hall => ?_⟩
    rw [hg] at hall
    rcases mem_allBodies_graphFromOrbits.mp hall with hroot | ⟨r, hr', hsub⟩
    · apply htop
      rw [hg, topKeys_graphFromOrbits]
      exact hroot
    · obtain ⟨o, ho, rfl⟩ := mem_allBodies_rgs _ r cb hsub
      exact horb (List.mem_map.mpr ⟨o, ho, rfl⟩)
  · rintro ⟨hmem, horb, hall⟩
    exact ⟨hmem, horb, fun htop =>
      hall (topKeys_subset_allBodies _ _ htop)⟩

/-- Witness for C2: with bodies A, B, C and the single orbit B-around-A, the
untethered listing is exactly the C entry. -/
theorem claim_C2_witness :
    ("C", bodyC) ∈ untethered_planets uABC1 ∧
    untethered_planets uABC1 = [("C", bodyC)] := by
  constructor
  · refine (claim_C2 reachable_uABC1 "C" bodyC).mpr ⟨by decide, by decide,
      ?_⟩
    rw [show uABC1.orbital_graph = .mk [(bodyA, .mk [(bodyB, .mk [])])]
      from rfl]
    simp only [NestedMap.allBodies_cons, NestedMap.allBodies_nil]
    decide
  · rfl

/-! ### Claim C3: termination and no-revisit of the recursive graph build

The key invariant is that each body is the orbiting body of at most one
stored orbit (enforced by `add_orbit`).  From it we derive that parent
chains are duplicate-free and bounded, hence the recursion depth of
`__recursive_graph_sort` is bounded by the number of orbits (termination)
and no body can appear twice in the built graph. -/

/-- Each body occurs as `orbiting_body` in at most one entry of the orbit
list. -/
def SingleOrbiting (os : List Orbit) : Prop :=
  ∀ b : CelestialBody,
    (os.filter fun o => decide (o.orbiting_body = b)).length ≤ 1

lemma singleOrbiting_nil : SingleOrbiting [] := by
  intro b; simp

lemma singleOrbiting_tail {o' : Orbit} {os : List Orbit}
    (hs : SingleOrbiting (o' :: os)) : SingleOrbiting os := by
  intro b
  have h := hs b
  rw [List.filter_cons] at h
  split at h
  · rw [List.length_cons] at h
    omega
  · exact h

lemma singleOrbiting_perm {os1 os2 : List Orbit} (hp : List.Perm os1 os2)
    (hs : SingleOrbiting os1) : SingleOrbiting os2 := by
  intro b
  rw [← (hp.filter (fun o => decide (o.orbiting_body = b))).length_eq]
  exact hs b

/-- The unique parent orbit of a body: the first stored orbit whose
orbiting body is `b` (what `add_orbit`'s `list.index` search finds). -/
def parentOf (os : List Orbit) (b : CelestialBody) : Option Orbit :=
  os.find? fun o => decide (o.orbiting_body = b)

lemma parentOf_mem {os : List Orbit} {b : CelestialBody} {o : Orbit}
    (h : parentOf os b = some o) : o ∈ os :=
  List.mem_of_find?_eq_some h

lemma parentOf_orbiting {os : List Orbit} {b : CelestialBody} {o : Orbit}
    (h : parentOf os b = some o) : o.orbiting_body = b := by
  have := List.find?_some h
  simpa using this

/-- Under the single-orbiting invariant, any stored orbit with orbiting body
`b` IS the parent `find?` returns. -/
lemma parentOf_eq_some_of_mem {os : List Orbit} (hs : SingleOrbiting os)
    {o : Orbit} {b : CelestialBody} (ho : o ∈ os)
    (hb : o.orbiting_body = b) : parentOf os b = some o := by
  induction os with
  | nil => cases ho
  | cons o' os ih =>
    by_cases hp : o'.orbiting_body = b
    · have hfil2 : (os.filter fun x => decide (x.orbiting_body = b)) = [] :=
        by
        have hone := hs b
        rw [List.filter_cons, if_pos (by simp [hp]), List.length_cons]
          at hone
        exact List.length_eq_zero.mp (by omega)
      have ho2 : o = o' := by
        rcases List.mem_cons.mp ho with h | h
        · exact h
        · exfalso
          have hmem : o ∈ os.filter fun x => decide (x.orbiting_body = b) :=
            List.mem_filter.mpr ⟨h, by simp [hb]⟩
          rw [hfil2] at hmem
          cases hmem
      subst ho2
      unfold parentOf
      exact List.find?_cons_of_pos _ (by simp [hb])
    · have ho2 : o ∈ os := by
        rcases List.mem_cons.mp ho with h | h
        · exact absurd (h ▸ hb) hp
        · exact h
      unfold parentOf
      rw [List.find?_cons_of_neg _ (by simp [hp])]
      exact ih (singleOrbiting_tail hs) ho2

/-- An upward parent chain: a nonempty list of bodies in which each body's
unique parent orbit points to the next body, and the last body has no
parent. -/
inductive PChain (os : List Orbit) : List CelestialBody → Prop where
  | single {b : CelestialBody} : parentOf os b = none → PChain os [b]
  | cons {b p : CelestialBody} {rest : List CelestialBody} {o : Orbit} :
      parentOf os b = some o → o.primary_body = p → PChain os (p :: rest) →
      PChain os (b :: p :: rest)

lemma pchain_ne_nil {os : List Orbit} {l : List CelestialBody}
    (h : PChain os l) : l ≠ [] := by
  cases h <;> simp

lemma pchain_tail {os : List Orbit} {b : CelestialBody}
    {l : List CelestialBody} (h : PChain os (b :: l)) (hl : l ≠ []) :
    PChain os l := by
  cases h with
  | single _ => exact absurd rfl hl
  | cons _ _ hrest => exact hrest

lemma pchain_suffix {os : List Orbit} :
    ∀ {L l2 : List CelestialBody}, PChain os L → List.IsSuffix l2 L →
      l2 ≠ [] → PChain os l2 := by
  intro L
  induction L with
  | nil =>
    intro l2 hc
    exact absurd rfl (pchain_ne_nil hc)
  | cons b L ih =>
    intro l2 hc hsuf hne
    rcases List.suffix_cons_iff.mp hsuf with h | h
    · rw [h]; exact hc
    · have hne2 : L ≠ [] := by
        intro hnil
        rw [hnil] at h
        exact hne (List.suffix_nil.mp h)
      exact ih (pchain_tail hc hne2) h hne

/-- Chains are determined by their head body (parents are unique). -/
lemma pchain_det {os : List Orbit} {L1 : List CelestialBody}
    (h1 : PChain os L1) :
    ∀ {L2 : List CelestialBody}, PChain os L2 → L1.head? = L2.head? →
      L1 = L2 := by
  induction h1 with
  | @single b hnone =>
    intro L2 h2 hh
    cases h2 with
    | @single b2 hnone2 =>
      simp only [List.head?_cons, Option.some.injEq] at hh
      rw [hh]
    | @cons b2 p2 rest2 o2 hsome2 hprim2 hrest2 =>
      simp only [List.head?_cons, Option.some.injEq] at hh
      rw [hh] at hnone
      rw [hnone] at hsome2
      cases hsome2
  | @cons b p rest o hsome hprim hrest ih =>
    intro L2 h2 hh
    cases h2 with
    | @single b2 hnone2 =>
      simp only [List.head?_cons, Option.some.injEq] at hh
      rw [← hh] at hnone2
      rw [hnone2] at hsome
      cases hsome
    | @cons b2 p2 rest2 o2 hsome2 hprim2 hrest2 =>
      simp only [List.head?_cons, Option.some.injEq] at hh
      subst hh
      rw [hsome] at hsome2
      injection hsome2 with ho
      subst ho
      rw [hprim] at hprim2
      subst hprim2
      rw [ih hrest2 (by simp)]

lemma pchain_head_det {os : List Orbit} (hs : SingleOrbiting os)
    {b : CelestialBody} {t1 t2 : List CelestialBody}
    (h1 : PChain os (b :: t1)) (h2 : PChain os (b :: t2)) : t1 = t2 := by
  have h := pchain_det h1 h2 (by simp)
  injection h

lemma pchain_head_not_mem {os : List Orbit} (hs : SingleOrbiting os)
    {b : CelestialBody} {l : List CelestialBody} (h : PChain os (b :: l)) :
    b ∉ l := by
  intro hmem
  obtain ⟨l1, l2, rfl⟩ := List.append_of_mem hmem
  have hsuf : List.IsSuffix (b :: l2) (b :: (l1 ++ b :: l2)) :=
    (List.suffix_append l1 (b :: l2)).trans
      (List.suffix_cons b (l1 ++ b :: l2))
  have hch2 : PChain os (b :: l2) := pchain_suffix h hsuf (by simp)
  have heq := pchain_head_det hs h hch2
  have : (l1 ++ b :: l2).length = l2.length := by rw [heq]
  simp [List.length_append] at this
  omega

lemma pchain_nodup {os : List Orbit} (hs : SingleOrbiting os)
    {l : List CelestialBody} (h : PChain os l) : l.Nodup := by
  induction h with
  | single _ => simp
  | cons hsome hprim hrest ih =>
    exact List.nodup_cons.mpr
      ⟨pchain_head_not_mem hs (PChain.cons hsome hprim hrest), ih⟩

lemma pchain_dropLast_parents {os : List Orbit} {l : List CelestialBody}
    (h : PChain os l) :
    ∀ b ∈ l.dropLast, (parentOf os b).isSome = true := by
  induction h with
  | single _ => simp
  | cons hsome hprim hrest ih =>
    intro x hx
    rw [List.dropLast_cons₂] at hx
    rcases List.mem_cons.mp hx with rfl | hx
    · simp [hsome]
    · exact ih x hx

/-- A parent chain has at most one more body than there are orbits: every
body but the last injects into its (unique) parent orbit. -/
lemma pchain_length {os : List Orbit} (hs : SingleOrbiting os)
    {l : List CelestialBody} (h : PChain os l) :
    l.length ≤ os.length + 1 := by
  classical
  have hno : l.dropLast.Nodup :=
    (pchain_nodup hs h).sublist (List.dropLast_sublist l)
  have hpar := pchain_dropLast_parents h
  have hmaps : ∀ b ∈ l.dropLast.toFinset,
      parentOf os b ∈ os.toFinset.image some := by
    intro b hb
    rcases hq : parentOf os b with _ | o
    · exfalso
      have hdefined := hpar b (List.mem_toFinset.mp hb)
      rw [hq] at hdefined
      simp at hdefined
    · exact Finset.mem_image.mpr
        ⟨o, List.mem_toFinset.mpr (parentOf_mem hq), rfl⟩
  have hinj : Set.InjOn (parentOf os) l.dropLast.toFinset := by
    intro b1 hb1 b2 hb2 heq
    have hb1' := List.mem_toFinset.mp (Finset.mem_coe.mp hb1)
    rcases hq1 : parentOf os b1 with _ | o1
    · exfalso
      have hdefined := hpar b1 hb1'
      rw [hq1] at hdefined
      simp at hdefined
    · rw [hq1] at heq
      have horb1 := parentOf_orbiting hq1
      have horb2 := parentOf_orbiting heq.symm
      rw [← horb1, ← horb2]
  have hcard :
      l.dropLast.toFinset.card ≤ (os.toFinset.image some).card :=
    Finset.card_le_card_of_injOn (parentOf os) hmaps hinj
  have hcard2 : (os.toFinset.image some).card ≤ os.toFinset.card :=
    Finset.card_image_le
  have hcard3 : os.toFinset.card ≤ os.length := os.toFinset_card_le
  have hdl : l.dropLast.toFinset.card = l.dropLast.length :=
    List.toFinset_card_of_nodup hno
  have hlen : l.dropLast.length = l.length - 1 := List.length_dropLast l
  have hne : l ≠ [] := pchain_ne_nil h
  have hpos : 1 ≤ l.length := by
    rcases l with _ | ⟨a, t⟩
    · exact absurd rfl hne
    · simp
  omega

lemma pchain_child {os : List Orbit} (hs : SingleOrbiting os)
    {b : CelestialBody} {l : List CelestialBody} (h : PChain os (b :: l))
    {o : Orbit} (ho : o ∈ os) (hprim : o.primary_body = b) :
    PChain os (o.orbiting_body :: b :: l) :=
  PChain.cons (parentOf_eq_some_of_mem hs ho rfl) hprim h

/-- When the chain above `b` is already as long as the orbit list allows,
`b` can have no children (otherwise the child's chain would be too long). -/
lemma filter_primary_eq_nil {os : List Orbit} (hs : SingleOrbiting os)
    {b : CelestialBody} {l : List CelestialBody} (hch : PChain os (b :: l))
    (hfull : os.length ≤ l.length) :
    os.filter (fun o => decide (o.primary_body = b)) = [] := by
  rw [List.filter_eq_nil_iff]
  intro o ho hpred
  have hprim : o.primary_body = b := by simpa using hpred
  have hch2 := pchain_child hs hch ho hprim
  have hlen2 := pchain_length hs hch2
  rw [List.length_cons, List.length_cons] at hlen2
  omega

/-- Fuel-independence of `recursiveGraphSort`: with the single-orbiting
invariant, once the fuel exceeds the number of orbits not yet used by the
ancestor chain, the result no longer depends on the fuel.  This is the
formal sense in which the unbounded Python recursion terminates. -/
lemma rgs_stabilize_aux {os : List Orbit} (hs : SingleOrbiting os) :
    ∀ (k : Nat) (l : List CelestialBody) (b : CelestialBody) (n1 n2 : Nat),
      PChain os (b :: l) → os.length - l.length = k →
      k + 1 ≤ n1 → k + 1 ≤ n2 →
      recursiveGraphSort os n1 b = recursiveGraphSort os n2 b := by
  intro k
  induction k with
  | zero =>
    intro l b n1 n2 hch hlen h1 h2
    match n1, h1, n2, h2 with
    | m1 + 1, _, m2 + 1, _ =>
      rw [recursiveGraphSort, recursiveGraphSort,
        filter_primary_eq_nil hs hch (by omega)]
      rfl
  | succ k ih =>
    intro l b n1 n2 hch hlen h1 h2
    match n1, h1, n2, h2 with
    | m1 + 1, _, m2 + 1, _ =>
      rw [recursiveGraphSort, recursiveGraphSort]
      congr 1
      apply List.map_congr_left
      intro o ho
      have hprim : o.primary_body = b := by
        simpa using List.of_mem_filter ho
      have ho' : o ∈ os := List.mem_of_mem_filter ho
      have hch2 := pchain_child hs hch ho' hprim
      have hlenl := pchain_length hs hch
      rw [List.length_cons] at hlenl
      exact congrArg (Prod.mk o.orbiting_body)
        (ih (b :: l) o.orbiting_body m1 m2 hch2
          (by rw [List.length_cons]; omega) (by omega) (by omega))

lemma parentOf_root {os : List Orbit} {r : CelestialBody}
    (hr : r ∈ rootsOf os) : parentOf os r = none := by
  unfold rootsOf at hr
  have hnot := (List.mem_filter.mp hr).2
  rw [decide_eq_true_eq] at hnot
  rw [parentOf, List.find?_eq_none]
  intro o ho
  simp only [decide_eq_true_eq]
  intro heq
  exact hnot (List.mem_map.mpr ⟨o, ho, heq⟩)

/-- Stabilization at the roots: any fuel of at least `os.length + 1` gives
the same subtree as the fuel the embedding uses. -/
lemma rgs_stabilize {os : List Orbit} (hs : SingleOrbiting os)
    {r : CelestialBody} (hr : parentOf os r = none) (n1 n2 : Nat)
    (h1 : os.length + 1 ≤ n1) (h2 : os.length + 1 ≤ n2) :
    recursiveGraphSort os n1 r = recursiveGraphSort os n2 r :=
  rgs_stabilize_aux hs os.length [] r n1 n2 (.single hr) (by simp) h1 h2

/-! ### No body appears twice in the built graph -/

/-- Iterated parent steps: `iterParent os k b` climbs `k` parent links from
`b`, returning `none` when the chain runs out before `k` steps. -/
def iterParent (os : List Orbit) : Nat → CelestialBody → Option CelestialBody
  | 0, b => some b
  | k + 1, b =>
    match parentOf os b with
    | none => none
    | some o => iterParent os k o.primary_body

@[simp] lemma iterParent_zero (os : List Orbit) (b : CelestialBody) :
    iterParent os 0 b = some b := rfl

lemma iterParent_none_succ {os : List Orbit} {b : CelestialBody}
    (hp : parentOf os b = none) (k : Nat) :
    iterParent os (k + 1) b = none := by
  show (match parentOf os b with
    | none => none
    | some o => iterParent os k o.primary_body) = none
  rw [hp]

lemma iterParent_some_succ {os : List Orbit} {b : CelestialBody} {o : Orbit}
    (hp : parentOf os b = some o) (k : Nat) :
    iterParent os (k + 1) b = iterParent os k o.primary_body := by
  show (match parentOf os b with
    | none => none
    | some o => iterParent os k o.primary_body) = _
  rw [hp]

lemma iterParent_add (os : List Orbit) (k : Nat) :
    ∀ (j : Nat) (b : CelestialBody),
      iterParent os (j + k) b = (iterParent os j b).bind (iterParent os k)
  | 0, b => by rw [Nat.zero_add]; rfl
  | j + 1, b => by
    rw [show j + 1 + k = (j + k) + 1 from by omega]
    rcases hp : parentOf os b with _ | o
    · rw [iterParent_none_succ hp, iterParent_none_succ hp]
      rfl
    · rw [iterParent_some_succ hp, iterParent_some_succ hp,
        iterParent_add os k j o.primary_body]

/-- `x` reaches `r` in at least one parent step, and no strictly earlier
point of the walk (including `x` itself) lies in `avoid`. -/
def ReachAvoid (os : List Orbit) (x r : CelestialBody)
    (avoid : List CelestialBody) : Prop :=
  ∃ k, 1 ≤ k ∧ iterParent os k x = some r ∧
    ∀ j, j < k → ∀ y, iterParent os j x = some y → y ∉ avoid

lemma ReachAvoid.self_not_mem {os : List Orbit} {x r : CelestialBody}
    {avoid : List CelestialBody} (h : ReachAvoid os x r avoid) :
    x ∉ avoid := by
  obtain ⟨k, hk, _, hav⟩ := h
  exact hav 0 (by omega) x rfl

lemma reach_from_parentless {os : List Orbit} {x r : CelestialBody}
    {avoid : List CelestialBody} (hp : parentOf os x = none)
    (ra : ReachAvoid os x r avoid) : False := by
  obtain ⟨k, hk, hit, _⟩ := ra
  rw [show k = (k - 1) + 1 from by omega, iterParent_none_succ hp] at hit
  cases hit

/-- A sibling cannot lie inside another sibling's subtree. -/
lemma reach_avoid_sibling_mem {os : List Orbit} {c1 c2 b : CelestialBody}
    {l : List CelestialBody} (h1 : iterParent os 1 c1 = some b)
    (hb2 : c2 ≠ b) (ra : ReachAvoid os c1 c2 (c2 :: b :: l)) : False := by
  obtain ⟨k, hk, hit, hav⟩ := ra
  rcases Nat.lt_or_ge 1 k with hgt | hle
  · exact hav 1 hgt b h1 (by simp)
  · have hk1 : k = 1 := by omega
    rw [hk1, h1] at hit
    injection hit with h
    exact hb2 h.symm

/-- Two different siblings' subtrees cannot share a body. -/
lemma reach_avoid_disjoint {os : List Orbit} {x c1 c2 b : CelestialBody}
    {l : List CelestialBody}
    (h1 : iterParent os 1 c1 = some b) (h2 : iterParent os 1 c2 = some b)
    (hb1 : c1 ≠ b) (hb2 : c2 ≠ b) (hne : c1 ≠ c2)
    (r1 : ReachAvoid os x c1 (c1 :: b :: l))
    (r2 : ReachAvoid os x c2 (c2 :: b :: l)) : False := by
  obtain ⟨k1, hk1, hit1, hav1⟩ := r1
  obtain ⟨k2, hk2, hit2, hav2⟩ := r2
  rcases Nat.lt_trichotomy k1 k2 with hlt | heq | hlt
  · have hext : iterParent os (k1 + 1) x = some b := by
      calc iterParent os (k1 + 1) x
          = (iterParent os k1 x).bind (iterParent os 1) :=
            iterParent_add os 1 k1 x
        _ = iterParent os 1 c1 := by rw [hit1]; rfl
        _ = some b := h1
    rcases Nat.lt_or_ge (k1 + 1) k2 with hj | hj
    · exact hav2 (k1 + 1) hj b hext (by simp)
    · have hk12 : k1 + 1 = k2 := by omega
      rw [hk12, hit2] at hext
      injection hext with h
      exact hb2 h
  · rw [heq, hit2] at hit1
    injection hit1 with h
    exact hne h.symm
  · have hext : iterParent os (k2 + 1) x = some b := by
      calc iterParent os (k2 + 1) x
          = (iterParent os k2 x).bind (iterParent os 1) :=
            iterParent_add os 1 k2 x
        _ = iterParent os 1 c2 := by rw [hit2]; rfl
        _ = some b := h2
    rcases Nat.lt_or_ge (k2 + 1) k1 with hj | hj
    · exact hav1 (k2 + 1) hj b hext (by simp)
    · have hk21 : k2 + 1 = k1 := by omega
      rw [hk21, hit1] at hext
      injection hext with h
      exact hb1 h

/-- Two different roots' trees cannot share a body. -/
lemma reach_root_disjoint {os : List Orbit} {x r1 r2 : CelestialBody}
    (hp1 : parentOf os r1 = none) (hp2 : parentOf os r2 = none)
    (hne : r1 ≠ r2) (ra1 : ReachAvoid os x r1 [r1])
    (ra2 : ReachAvoid os x r2 [r2]) : False := by
  obtain ⟨k1, hk1, hit1, _⟩ := ra1
  obtain ⟨k2, hk2, hit2, _⟩ := ra2
  rcases Nat.lt_trichotomy k1 k2 with hlt | heq | hlt
  · have hext : iterParent os (k1 + (k2 - k1)) x = some r2 := by
      rw [show k1 + (k2 - k1) = k2 from by omega]
      exact hit2
    rw [iterParent_add os (k2 - k1) k1 x, hit1] at hext
    have hext2 : iterParent os (k2 - k1) r1 = some r2 := hext
    rw [show k2 - k1 = (k2 - k1 - 1) + 1 from by omega,
      iterParent_none_succ hp1] at hext2
    cases hext2
  · rw [heq, hit2] at hit1
    injection hit1 with h
    exact hne h.symm
  · have hext : iterParent os (k2 + (k1 - k2)) x = some r1 := by
      rw [show k2 + (k1 - k2) = k1 from by omega]
      exact hit1
    rw [iterParent_add os (k1 - k2) k2 x, hit2] at hext
    have hext2 : iterParent os (k1 - k2) r2 = some r1 := hext
    rw [show k1 - k2 = (k1 - k2 - 1) + 1 from by omega,
      iterParent_none_succ hp2] at hext2
    cases hext2

/-- Under the single-orbiting invariant, distinct stored orbits have
distinct orbiting bodies. -/
lemma pairwise_ne_orbiting_all :
    ∀ {os : List Orbit}, SingleOrbiting os →
      os.Pairwise fun o1 o2 => o1.orbiting_body ≠ o2.orbiting_body := by
  intro os
  induction os with
  | nil => intro _; exact List.Pairwise.nil
  | cons o' os ih =>
    intro hs
    refine List.Pairwise.cons ?_ (ih (singleOrbiting_tail hs))
    intro o2 ho2 heq
    have h := hs o'.orbiting_body
    rw [List.filter_cons, if_pos (by simp), List.length_cons] at h
    have hmem : o2 ∈ os.filter fun x =>
        decide (x.orbiting_body = o'.orbiting_body) :=
      List.mem_filter.mpr ⟨ho2, by simp [heq]⟩
    have hpos := List.length_pos_of_mem hmem
    omega

lemma pairwise_ne_orbiting {os : List Orbit} (hs : SingleOrbiting os)
    (p : Orbit → Bool) :
    (os.filter p).Pairwise
      fun o1 o2 => o1.orbiting_body ≠ o2.orbiting_body :=
  (pairwise_ne_orbiting_all hs).sublist (List.filter_sublist os)

lemma allBodies_mk_eq_flatMap (es : List (CelestialBody × NestedMap)) :
    (NestedMap.mk es).allBodies =
      es.flatMap fun p => p.1 :: p.2.allBodies := by
  induction es with
  | nil => simp
  | cons p rest ih =>
    obtain ⟨b, g⟩ := p
    rw [NestedMap.allBodies_cons, List.flatMap_cons, ih]
    simp

/-- Main induction for claim C3's no-revisit property: below a body `b`
with ancestor chain `b :: l`, the subtree contains no duplicates and all
its bodies reach `b` by parent steps while avoiding the chain. -/
lemma rgs_nodup_aux {os : List Orbit} (hs : SingleOrbiting os) :
    ∀ (k : Nat) (l : List CelestialBody) (b : CelestialBody) (n : Nat),
      PChain os (b :: l) → os.length - l.length = k → k + 1 ≤ n →
      (b :: (recursiveGraphSort os n b).allBodies).Nodup ∧
      ∀ x ∈ (recursiveGraphSort os n b).allBodies,
        ReachAvoid os x b (b :: l) := by
  intro k
  induction k with
  | zero =>
    intro l b n hch hlen hn
    match n, hn with
    | m + 1, _ =>
      rw [recursiveGraphSort, filter_primary_eq_nil hs hch (by omega)]
      constructor
      · simp
      · intro x hx
        simp at hx
  | succ k ih =>
    intro l b n hch hlen hn
    match n, hn with
    | m + 1, _ =>
      rw [recursiveGraphSort, allBodies_mk_eq_flatMap, List.flatMap_map]
      set F := fun o : Orbit =>
        o.orbiting_body ::
          (recursiveGraphSort os m o.orbiting_body).allBodies with hF
      have hchild : ∀ o ∈ os.filter fun o => decide (o.primary_body = b),
          o ∈ os ∧ o.primary_body = b ∧
          PChain os (o.orbiting_body :: b :: l) ∧
          iterParent os 1 o.orbiting_body = some b ∧
          o.orbiting_body ∉ b :: l := by
        intro o ho
        have hprim : o.primary_body = b := by
          simpa using List.of_mem_filter ho
        have ho' : o ∈ os := List.mem_of_mem_filter ho
        have hc2 : PChain os (o.orbiting_body :: b :: l) :=
          pchain_child hs hch ho' hprim
        refine ⟨ho', hprim, hc2, ?_, pchain_head_not_mem hs hc2⟩
        rw [iterParent_some_succ (parentOf_eq_some_of_mem hs ho' rfl) 0,
          iterParent_zero, hprim]
      have hIH : ∀ o ∈ os.filter fun o => decide (o.primary_body = b),
          (o.orbiting_body ::
            (recursiveGraphSort os m o.orbiting_body).allBodies).Nodup ∧
          ∀ x ∈ (recursiveGraphSort os m o.orbiting_body).allBodies,
            ReachAvoid os x o.orbiting_body (o.orbiting_body :: b :: l) :=
        by
        intro o ho
        have hlenl := pchain_length hs hch
        rw [List.length_cons] at hlenl
        exact ih (b :: l) o.orbiting_body m (hchild o ho).2.2.1
          (by rw [List.length_cons]; omega) (by omega)
      have hB : ∀ x ∈ (os.filter fun o =>
          decide (o.primary_body = b)).flatMap F,
          ReachAvoid os x b (b :: l) := by
        intro x hx
        obtain ⟨o, ho, hxo⟩ := List.mem_flatMap.mp hx
        obtain ⟨ho', hprim, hc2, hstep, hnotmem⟩ := hchild o ho
        rw [hF] at hxo
        rcases List.mem_cons.mp hxo with rfl | hxo
        · refine ⟨1, le_refl 1, hstep, ?_⟩
          intro j hj y hy
          have hj0 : j = 0 := by omega
          rw [hj0, iterParent_zero] at hy
          injection hy with hy
          rw [← hy]
          exact hnotmem
        · obtain ⟨k', hk', hit', hav'⟩ := (hIH o ho).2 x hxo
          refine ⟨k' + 1, by omega, ?_, ?_⟩
          · calc iterParent os (k' + 1) x
                = (iterParent os k' x).bind (iterParent os 1) :=
                  iterParent_add os 1 k' x
              _ = iterParent os 1 o.orbiting_body := by rw [hit']; rfl
              _ = some b := hstep
          · intro j hj y hy
            rcases Nat.lt_or_ge j k' with hjk | hjk
            · have hnot := hav' j hjk y hy
              intro hmem
              exact hnot (List.mem_cons_of_mem _ hmem)
            · have hjeq : j = k' := by omega
              rw [hjeq, hit'] at hy
              injection hy with hy
              rw [← hy]
              exact hnotmem
      refine ⟨?_, hB⟩
      rw [List.nodup_cons]
      refine ⟨fun hbmem =>
        (hB b hbmem).self_not_mem (List.mem_cons_self b l), ?_⟩
      rw [List.nodup_flatMap]
      refine ⟨fun o ho => (hIH o ho).1, ?_⟩
      refine (pairwise_ne_orbiting hs _).imp_of_mem ?_
      intro o1 o2 ho1 ho2 hne12
      intro x hx1 hx2
      obtain ⟨_, _, _, hstep1, hnm1⟩ := hchild o1 ho1
      obtain ⟨_, _, _, hstep2, hnm2⟩ := hchild o2 ho2
      have hb1 : o1.orbiting_body ≠ b := fun hEq =>
        hnm1 (hEq ▸ List.mem_cons_self b l)
      have hb2 : o2.orbiting_body ≠ b := fun hEq =>
        hnm2 (hEq ▸ List.mem_cons_self b l)
      rw [hF] at hx1 hx2
      rcases List.mem_cons.mp hx1 with rfl | hx1
      · rcases List.mem_cons.mp hx2 with hx2e | hx2
        · exact hne12 hx2e
        · exact reach_avoid_sibling_mem hstep1 hb2
            ((hIH o2 ho2).2 _ hx2)
      · rcases List.mem_cons.mp hx2 with rfl | hx2
        · exact reach_avoid_sibling_mem hstep2 hb1
            ((hIH o1 ho1).2 _ hx1)
        · exact reach_avoid_disjoint hstep1 hstep2 hb1 hb2 hne12
            ((hIH o1 ho1).2 _ hx1) ((hIH o2 ho2).2 _ hx2)

/-- Under the single-orbiting invariant, no body appears more than once
anywhere in the derived orbital graph. -/
theorem graph_allBodies_nodup {os : List Orbit} (hs : SingleOrbiting os) :
    (graphFromOrbits os).allBodies.Nodup := by
  unfold graphFromOrbits
  rw [allBodies_mk_eq_flatMap, List.flatMap_map]
  set FR := fun r : CelestialBody =>
    r :: (recursiveGraphSort os (os.length + 1) r).allBodies with hFR
  have hroot : ∀ r ∈ rootsOf os, parentOf os r = none :=
    fun r hr => parentOf_root hr
  have haux : ∀ r ∈ rootsOf os,
      (r :: (recursiveGraphSort os (os.length + 1) r).allBodies).Nodup ∧
      ∀ x ∈ (recursiveGraphSort os (os.length + 1) r).allBodies,
        ReachAvoid os x r [r] := by
    intro r hr
    exact rgs_nodup_aux hs os.length [] r (os.length + 1)
      (.single (hroot r hr)) (by simp) (le_refl _)
  rw [List.nodup_flatMap]
  refine ⟨fun r hr => (haux r hr).1, ?_⟩
  have hrnd : (rootsOf os).Nodup := by
    unfold rootsOf
    exact (List.nodup_dedup _).filter _
  refine hrnd.imp_of_mem ?_
  intro r1 r2 hr1 hr2 hne
  intro x hx1 hx2
  rw [hFR] at hx1 hx2
  rcases List.mem_cons.mp hx1 with hx1e | hx1
  · rcases List.mem_cons.mp hx2 with hx2e | hx2
    · exact hne (hx1e.symm.trans hx2e)
    · exact reach_from_parentless
        (by rw [hx1e]; exact hroot r1 hr1) ((haux r2 hr2).2 _ hx2)
  · rcases List.mem_cons.mp hx2 with hx2e | hx2
    · exact reach_from_parentless
        (by rw [hx2e]; exact hroot r2 hr2) ((haux r1 hr1).2 _ hx1)
    · exact reach_root_disjoint (hroot r1 hr1) (hroot r2 hr2) hne
        ((haux r1 hr1).2 _ hx1) ((haux r2 hr2).2 _ hx2)

lemma add_orbit_success_cases (u : Universe) (o : Orbit) :
    (add_orbit u o).2 = u ∨
    ((u.orbits.find? fun x => decide (x.orbiting_body = o.orbiting_body))
        = none ∧
      (add_orbit u o).2.orbits = sortOrbits (u.orbits ++ [o])) := by
  by_cases h1 :
      (dictLookup u.celestial_bodies o.primary_body.name).isNone = true
  · left; simp [add_orbit, h1]
  · by_cases h2 :
        (dictLookup u.celestial_bodies o.orbiting_body.name).isNone = true
    · left; simp [add_orbit, h1, h2]
    · rcases hfind : u.orbits.find?
          (fun x => decide (x.orbiting_body = o.orbiting_body)) with _ | prev
      · right
        refine ⟨hfind, ?_⟩
        simp [add_orbit, h1, h2, hfind, buildAcyclicGraphOfOrbits]
      · left; simp [add_orbit, h1, h2, hfind]

/-- The single-orbiting (forest) invariant holds in every reachable
state: `add_orbit` rejects an orbit whose orbiting body already orbits. -/
theorem reachable_singleOrbiting {u : Universe} (h : Reachable u) :
    SingleOrbiting u.orbits := by
  induction h with
  | init name => exact singleOrbiting_nil
  | step op hu ih =>
    rename_i v
    cases op with
    | addBody cb =>
      show SingleOrbiting (add_celestial_body v cb).2.orbits
      rw [(add_celestial_body_orbits_graph v cb).1]
      exact ih
    | rename c n =>
      show SingleOrbiting (alter_celestial_body_name v c n).2.orbits
      rw [(alter_orbits_graph v c n).1]
      exact ih
    | addOrbit o =>
      show SingleOrbiting (add_orbit v o).2.orbits
      rcases add_orbit_success_cases v o with hs | ⟨hfind, horb⟩
      · rw [hs]; exact ih
      · rw [horb]
        apply singleOrbiting_perm
          (List.perm_insertionSort
            (fun a b => a.semimajor_axis ≤ b.semimajor_axis)
            (v.orbits ++ [o])).symm
        intro b
        rw [List.filter_append]
        by_cases hb : o.orbiting_body = b
        · have hnil : (v.orbits.filter
              fun x => decide (x.orbiting_body = b)) = [] := by
            rw [List.filter_eq_nil_iff]
            intro a ha
            have hnone := List.find?_eq_none.mp hfind a ha
            simp only [decide_eq_true_eq] at hnone ⊢
            rw [hb] at hnone
            exact hnone
          rw [hnil]
          simp [hb]
        · have hnil : ([o].filter
              fun x => decide (x.orbiting_body = b)) = [] := by
            simp [hb]
          rw [hnil, List.append_nil]
          exact ih b

/-- Claim C3: in every reachable universe state the graph rebuild
terminates — the recursion from every root is independent of any fuel of at
least `orbits.length + 1`, so the unbounded Python recursion reaches a fixed
point — and no body appears more than once anywhere in the derived
`orbital_graph` (the recursion never revisits a node: the result is a
forest). -/
theorem claim_C3 {u : Universe} (h : Reachable u) :
    (∀ fuel, u.orbits.length + 1 ≤ fuel → ∀ r ∈ rootsOf u.orbits,
      recursiveGraphSort u.orbits fuel r =
        recursiveGraphSort u.orbits (u.orbits.length + 1) r) ∧
    u.orbital_graph.allBodies.Nodup := by
  have hs := reachable_singleOrbiting h
  constructor
  · intro fuel hf r hr
    exact rgs_stabilize hs (parentOf_root hr) fuel _ hf (le_refl _)
  · rw [reachable_graph_eq h]
    exact graph_allBodies_nodup hs

/-- Witness for C3 at the concrete Sun/Earth universe: extra fuel changes
nothing and the graph bodies are duplicate-free. -/
theorem claim_C3_witness :
    (recursiveGraphSort uSystem1.orbits 5 sunBody =
      recursiveGraphSort uSystem1.orbits (uSystem1.orbits.length + 1)
        sunBody) ∧
    uSystem1.orbital_graph.allBodies.Nodup := by
  have h := claim_C3 reachable_uSystem1
  refine ⟨h.1 5 (by rw [show uSystem1.orbits.length = 1 from rfl]; omega)
    sunBody ?_, h.2⟩
  rw [show rootsOf uSystem1.orbits = [sunBody] from rfl]
  exact List.mem_singleton.mpr rfl

end CelestialSim
